import Mathlib

/-!
Verification of the date/time picker logic in `src/index.tsx`:
the 12/24-hour time arithmetic of `TimePicker`, the minute-interval
validation, the calendar-grid generation of `DatePicker`, the
date/time mutation handlers of `DateTimePicker`, and the open/close
and overlay interaction state.
-/

namespace RDateTime

/-- The AM/PM period of the `TimePicker` state. -/
inductive Period where
  | am : Period
  | pm : Period
deriving DecidableEq, Repr, Fintype

/-- The initial period state: `useState(date.getHours() >= 12 ? "PM" : "AM")`. -/
def periodOf (hours : Nat) : Period :=
  if 12 ≤ hours then Period.pm else Period.am

/-- The derived `displayHours` of `TimePicker`:
`period === "AM" ? (hours === 0 ? 12 : hours) : (hours === 12 ? 12 : hours - 12)`. -/
def displayHours (hours : Nat) (period : Period) : Nat :=
  match period with
  | Period.am => if hours = 0 then 12 else hours
  | Period.pm => if hours = 12 then 12 else hours - 12

/-- The `newHours` reconstruction in the `TimePicker` effect:
`period === "AM" ? (displayHours === 12 ? 0 : displayHours)
               : (displayHours === 12 ? 12 : displayHours + 12)`. -/
def newHours24 (dHours : Nat) (period : Period) : Nat :=
  match period with
  | Period.am => if dHours = 12 then 0 else dHours
  | Period.pm => if dHours = 12 then 12 else dHours + 12

/-- The 12-hour display pair derived from the `TimePicker` state when the
state is consistent with a 24-hour value `h` (period is PM iff `12 ≤ h`). -/
def to12Hour (h : Nat) : Nat × Period :=
  (displayHours h (periodOf h), periodOf h)

/-- The 24-hour value reconstructed from a (displayHour, period) pair. -/
def to24Hour (p : Nat × Period) : Nat :=
  newHours24 p.1 p.2

/-- `handlePeriodChange` of `TimePicker`, restricted to its effect on `hours`:
switching to AM when `hours >= 12` subtracts 12, to PM when `hours < 12`
adds 12, otherwise `hours` is left unchanged. -/
def handlePeriodChange (hours : Nat) (newPeriod : Period) : Nat :=
  match newPeriod with
  | Period.am => if 12 ≤ hours then hours - 12 else hours
  | Period.pm => if hours < 12 then hours + 12 else hours

/-- `validatedMinuteInterval` of `TimePicker`:
`minuteInterval > 0 && 60 % minuteInterval === 0 ? minuteInterval : 1`. -/
def validatedMinuteInterval (minuteInterval : Int) : Int :=
  if 0 < minuteInterval ∧ 60 % minuteInterval = 0 then minuteInterval else 1

/-- `minuteOptions` of `TimePicker`:
`Array.from({length: Math.floor(60 / v)}, (_, i) => i * v)` with
`v = validatedMinuteInterval`. -/
def minuteOptions (minuteInterval : Int) : List Int :=
  (List.range (60 / validatedMinuteInterval minuteInterval).toNat).map
    (fun i => (i : Int) * validatedMinuteInterval minuteInterval)

/-- Spec-side description for the valid case of `minuteOptions`: the ordered
sequence of all multiples of the interval below 60. -/
def multiplesBelow60 (interval : Int) : List Int :=
  ((List.range 60).map (fun n => (n : Int))).filter (fun m => m % interval = 0)

/-- Gregorian leap-year rule, as implemented by the platform `Date`. -/
def isLeapYear (year : Nat) : Bool :=
  (year % 4 = 0 && year % 100 != 0) || year % 400 = 0

/-- `getDaysInMonth` of `DatePicker`: `new Date(year, month + 1, 0).getDate()`,
the number of days of the 0-based `month` of `year` in the Gregorian
calendar the platform `Date` implements. -/
def getDaysInMonth (year month : Nat) : Nat :=
  match month with
  | 0 => 31
  | 1 => if isLeapYear year then 29 else 28
  | 2 => 31
  | 3 => 30
  | 4 => 31
  | 5 => 30
  | 6 => 31
  | 7 => 31
  | 8 => 30
  | 9 => 31
  | 10 => 30
  | _ => 31

/-- Days from 0001-01-01 to January 1 of `year` in the proleptic Gregorian
calendar (the calendar of the platform `Date`), for `1 ≤ year`. -/
def daysBeforeYear (year : Nat) : Nat :=
  365 * (year - 1) + (year - 1) / 4 + (year - 1) / 400 - (year - 1) / 100

/-- Days from January 1 to day 1 of the 0-based `month`, within `year`. -/
def daysBeforeMonth (year month : Nat) : Nat :=
  ((List.range month).map (getDaysInMonth year)).sum

/-- `getFirstDayOfMonth` of `DatePicker`: `new Date(year, month, 1).getDay()`,
the weekday (Sunday = 0) of day 1 of the 0-based `month`. Day 0001-01-01 of
the proleptic Gregorian calendar is a Monday, weekday 1. -/
def getFirstDayOfMonth (year month : Nat) : Nat :=
  (1 + daysBeforeYear year + daysBeforeMonth year month) % 7

/-- The (year, month) pair of the month before the 0-based `month` of `year`:
`new Date(year, month - 1, 1)` normalizes month -1 to December of the
previous year. -/
def prevYearMonth (year month : Nat) : Nat × Nat :=
  if month = 0 then (year - 1, 11) else (year, month - 1)

/-- The day numbers rendered by `getPrevMonthDays` of `DatePicker`: for
`i < firstDayOfMonth`, the day `daysInPrevMonth - firstDayOfMonth + i + 1`. -/
def leadingFillerDays (year month : Nat) : List Nat :=
  let p := prevYearMonth year month
  let daysInPrevMonth := getDaysInMonth p.1 p.2
  let firstDayOfMonth := getFirstDayOfMonth year month
  (List.range firstDayOfMonth).map
    (fun i => daysInPrevMonth - firstDayOfMonth + i + 1)

/-- The day numbers rendered by `getNextMonthDays` of `DatePicker`: days
`1 .. 42 - firstDayOfMonth - daysInMonth` (an empty list when the loop bound
is not positive, as for the JS `for` loop). -/
def trailingFillerDays (year month : Nat) : List Nat :=
  let firstDayOfMonth := getFirstDayOfMonth year month
  let daysInMonth := getDaysInMonth year month
  (List.range (42 - firstDayOfMonth - daysInMonth)).map (fun d => d + 1)

/-- The committed value of `DateTimePicker`, a platform `Date` restricted to
the components the picker reads and writes: 0-based `month`, 1-based `day`,
24-hour `hours`. Two values are the same instant (`getTime` equality) iff
they are equal componentwise. -/
structure JSDate where
  year : Nat
  month : Nat
  day : Nat
  hours : Nat
  minutes : Nat
deriving DecidableEq, Repr

/-- The platform `Date` day-of-month normalization (MakeDay): a `day` beyond
the length of `month` carries into the following month. All inputs arising
here have `day ≤ 31`, so a single carry suffices. -/
def normalizeDate (year month day : Nat) : Nat × Nat × Nat :=
  if day ≤ getDaysInMonth year month then (year, month, day)
  else if month = 11 then (year + 1, 0, day - getDaysInMonth year month)
  else (year, month + 1, day - getDaysInMonth year month)

/-- `updatedDate.setFullYear(y)`: replaces the year, keeping month and
day-of-month, then normalizes. -/
def jsSetFullYear (dt : JSDate) (y : Nat) : JSDate :=
  let n := normalizeDate y dt.month dt.day
  { dt with year := n.1, month := n.2.1, day := n.2.2 }

/-- `updatedDate.setMonth(m)`: replaces the 0-based month, keeping the
day-of-month, then normalizes. -/
def jsSetMonth (dt : JSDate) (m : Nat) : JSDate :=
  let n := normalizeDate dt.year m dt.day
  { dt with year := n.1, month := n.2.1, day := n.2.2 }

/-- `updatedDate.setDate(d)`: replaces the day-of-month, then normalizes. -/
def jsSetDate (dt : JSDate) (d : Nat) : JSDate :=
  let n := normalizeDate dt.year dt.month d
  { dt with year := n.1, month := n.2.1, day := n.2.2 }

/-- `updatedDate.setHours(h)`: replaces the hours. The picker only passes
hours in 0..23, where the platform `Date` performs no carry. -/
def jsSetHours (dt : JSDate) (h : Nat) : JSDate :=
  { dt with hours := h }

/-- `updatedDate.setMinutes(m)`: replaces the minutes. The picker only
passes minutes in 0..59, where the platform `Date` performs no carry. -/
def jsSetMinutes (dt : JSDate) (m : Nat) : JSDate :=
  { dt with minutes := m }

/-- The `updatedDate` computed by `handleDateChange` before its guard:
a copy of `date` mutated by `setFullYear`, `setMonth`, `setDate` in that
order. -/
def dateChangeCandidate (date newDate : JSDate) : JSDate :=
  jsSetDate (jsSetMonth (jsSetFullYear date newDate.year) newDate.month) newDate.day

/-- The `updatedDate` computed by `handleTimeChange` before its guard:
a copy of `date` mutated by `setHours`, `setMinutes`. -/
def timeChangeCandidate (date : JSDate) (hours minutes : Nat) : JSDate :=
  jsSetMinutes (jsSetHours date hours) minutes

/-- `handleDateChange` of `DateTimePicker`: the committed value after the
handler runs (`setDate(updatedDate)` only when the instants differ). -/
def handleDateChange (date newDate : JSDate) : JSDate :=
  let updatedDate := dateChangeCandidate date newDate
  if updatedDate ≠ date then updatedDate else date

/-- `handleTimeChange` of `DateTimePicker`: the committed value after the
handler runs. -/
def handleTimeChange (date : JSDate) (hours minutes : Nat) : JSDate :=
  let updatedDate := timeChangeCandidate date hours minutes
  if updatedDate ≠ date then updatedDate else date

/-- A committed mutation of the `DateTimePicker` state. -/
inductive Mutation where
  | dateChange (newDate : JSDate) : Mutation
  | timeChange (hours minutes : Nat) : Mutation
deriving DecidableEq, Repr

/-- The `updatedDate` a mutation computes from the current committed value. -/
def mutationCandidate (date : JSDate) : Mutation → JSDate
  | Mutation.dateChange newDate => dateChangeCandidate date newDate
  | Mutation.timeChange hours minutes => timeChangeCandidate date hours minutes

/-- The `onChange` effect guard of `DateTimePicker`: the callback fires with
`date` only when `date.getTime() !== initialDate.getTime()`. On mount the
effect runs with `date = initialDate`. -/
def emitChange (initialDate date : JSDate) : Option JSDate :=
  if date ≠ initialDate then some date else none

/-- One committed mutation: the new committed value paired with the value the
change callback fires with, if any. The handler guard skips `setDate` (so the
effect does not rerun) when the recomputed value equals the current one. -/
def applyMutation (initialDate date : JSDate) (mu : Mutation) : JSDate × Option JSDate :=
  let updatedDate := mutationCandidate date mu
  if updatedDate ≠ date then (updatedDate, emitChange initialDate updatedDate)
  else (date, none)

/-- The mode of `DateTimePicker`. -/
inductive Mode where
  | datetime : Mode
  | date : Mode
  | time : Mode
deriving DecidableEq, Repr, Fintype

/-- The sub-view of the picker popup. -/
inductive View where
  | date : View
  | time : View
deriving DecidableEq, Repr, Fintype

/-- The open/close interaction state of `DateTimePicker`. -/
structure PickerState where
  isOpen : Bool
  activeView : View
deriving DecidableEq, Repr, Fintype

/-- `togglePicker` of `DateTimePicker`: the target view is forced by a
restricting mode, else taken from the optional argument with the current
view as default; open with the target view already active closes, anything
else opens on the target view. -/
def togglePicker (mode : Mode) (st : PickerState) (view : Option View) : PickerState :=
  let targetView :=
    match mode with
    | Mode.date => View.date
    | Mode.time => View.time
    | Mode.datetime => view.getD st.activeView
  if st.isOpen ∧ targetView = st.activeView then { st with isOpen := false }
  else { isOpen := true, activeView := targetView }

/-- Spec-side forced view of a toggle request: date-only and time-only modes
force the only permitted view regardless of the argument. -/
def forcedView (mode : Mode) (st : PickerState) (view : Option View) : View :=
  match mode with
  | Mode.date => View.date
  | Mode.time => View.time
  | Mode.datetime => view.getD st.activeView

/-- The year/month overlay state of `DatePicker`. -/
structure OverlayState where
  showYearSelector : Bool
  showMonthSelector : Bool
deriving DecidableEq, Repr, Fintype

/-- The two overlays of `DatePicker`. -/
inductive OverlayKind where
  | year : OverlayKind
  | month : OverlayKind
deriving DecidableEq, Repr, Fintype

/-- `toggleYearSelector` of `DatePicker`: closes the month overlay when it is
open, then toggles the year overlay. -/
def toggleYearSelector (st : OverlayState) : OverlayState :=
  let st1 := if st.showMonthSelector then { st with showMonthSelector := false } else st
  { st1 with showYearSelector := !st.showYearSelector }

/-- `toggleMonthSelector` of `DatePicker`: closes the year overlay when it is
open, then toggles the month overlay. -/
def toggleMonthSelector (st : OverlayState) : OverlayState :=
  let st1 := if st.showYearSelector then { st with showYearSelector := false } else st
  { st1 with showMonthSelector := !st.showMonthSelector }

/-- `openOverlay(kind)`: the toggle handler of the named overlay. -/
def openOverlay (st : OverlayState) : OverlayKind → OverlayState
  | OverlayKind.year => toggleYearSelector st
  | OverlayKind.month => toggleMonthSelector st

/-- A sequence of overlay toggles applied in order. -/
def runOverlayOps (st : OverlayState) (ops : List OverlayKind) : OverlayState :=
  ops.foldl openOverlay st

/-- The initial overlay state of `DatePicker`: both selectors closed. -/
def initialOverlayState : OverlayState :=
  { showYearSelector := false, showMonthSelector := false }

/-- At most one of the two overlays is open. -/
def overlayInvariant (st : OverlayState) : Prop :=
  st.showYearSelector = false ∨ st.showMonthSelector = false

instance (st : OverlayState) : Decidable (overlayInvariant st) :=
  inferInstanceAs
    (Decidable (st.showYearSelector = false ∨ st.showMonthSelector = false))

/-- C1: for every hour `h` in 0..23, the 12-hour display pair maps hour 0 to
(12, AM), hour 12 to (12, PM), and every other hour mod 12 with 0 mapped to
12; reconstructing the 24-hour value through `newHours24` yields exactly `h`:
`to24Hour (to12Hour h) = h`. -/
theorem to24Hour_to12Hour_roundtrip : ∀ h : Nat, h < 24 →
    to12Hour h = (if h % 12 = 0 then 12 else h % 12, periodOf h) ∧
    to24Hour (to12Hour h) = h := by
  decide

/-- Witness for C1 at hour 13. -/
theorem to24Hour_to12Hour_roundtrip_witness :
    to12Hour 13 = (if 13 % 12 = 0 then 12 else 13 % 12, periodOf 13) ∧
    to24Hour (to12Hour 13) = 13 :=
  to24Hour_to12Hour_roundtrip 13 (by decide)

/-- C5: for every hour `h` in 0..23, `handlePeriodChange` to AM when
`12 ≤ h` yields `h - 12`, to PM when `h < 12` yields `h + 12`, switching to
the period `h` is already in leaves `h` unchanged, and in every case the
displayed hour-of-12 is preserved. -/
theorem handlePeriodChange_spec : ∀ h : Nat, h < 24 →
    (handlePeriodChange h Period.am = if 12 ≤ h then h - 12 else h) ∧
    (handlePeriodChange h Period.pm = if h < 12 then h + 12 else h) ∧
    handlePeriodChange h (periodOf h) = h ∧
    (to12Hour (handlePeriodChange h Period.am)).1 = (to12Hour h).1 ∧
    (to12Hour (handlePeriodChange h Period.pm)).1 = (to12Hour h).1 := by
  decide

/-- Witness for C5 at hour 15. -/
theorem handlePeriodChange_spec_witness :
    (handlePeriodChange 15 Period.am = if 12 ≤ 15 then 15 - 12 else 15) ∧
    (handlePeriodChange 15 Period.pm = if 15 < 12 then 15 + 12 else 15) ∧
    handlePeriodChange 15 (periodOf 15) = 15 ∧
    (to12Hour (handlePeriodChange 15 Period.am)).1 = (to12Hour 15).1 ∧
    (to12Hour (handlePeriodChange 15 Period.pm)).1 = (to12Hour 15).1 :=
  handlePeriodChange_spec 15 (by decide)

/-- C6: for a positive interval that evenly divides 60, `minuteOptions` is
the ordered sequence of all multiples of the interval below 60; for every
other integer interval it falls back to interval 1 and returns 0..59. -/
theorem minuteOptions_spec : ∀ i : Int,
    (0 < i ∧ 60 % i = 0 → minuteOptions i = multiplesBelow60 i) ∧
    (¬(0 < i ∧ 60 % i = 0) →
      minuteOptions i = (List.range 60).map (fun n => (n : Int))) := by
  intro i
  constructor
  · rintro ⟨h1, h2⟩
    have hdvd : i ∣ 60 := Int.dvd_of_emod_eq_zero h2
    have h3 : i ≤ 60 := Int.le_of_dvd (by norm_num) hdvd
    have h4 : 1 ≤ i := h1
    interval_cases i <;> revert h2 <;> decide
  · intro h
    simp only [minuteOptions, validatedMinuteInterval, if_neg h]
    decide

/-- Witness for C6 at the valid interval 15 and the invalid interval 7. -/
theorem minuteOptions_spec_witness :
    minuteOptions 15 = multiplesBelow60 15 ∧
    minuteOptions 7 = (List.range 60).map (fun n => (n : Int)) :=
  ⟨(minuteOptions_spec 15).1 ⟨by decide, by decide⟩,
   (minuteOptions_spec 7).2 (by decide)⟩

/-- Every month has between 28 and 31 days. -/
lemma getDaysInMonth_bounds (year month : Nat) (h : month < 12) :
    28 ≤ getDaysInMonth year month ∧ getDaysInMonth year month ≤ 31 := by
  interval_cases month <;>
    simp only [getDaysInMonth] <;>
    first
      | omega
      | (cases isLeapYear year <;> simp)

/-- The weekday index of day 1 is below 7. -/
lemma getFirstDayOfMonth_lt (year month : Nat) : getFirstDayOfMonth year month < 7 :=
  Nat.mod_lt _ (by norm_num)

/-- The previous month has a 0-based index below 12. -/
lemma prevYearMonth_snd_lt (year month : Nat) (h : month < 12) :
    (prevYearMonth year month).2 < 12 := by
  unfold prevYearMonth
  split
  · simp
  · simp
    omega

/-- The last `f` entries of `[1, ..., n]`, in order, are
`n - f + 1, ..., n`. -/
lemma drop_map_range (n f : Nat) (h : f ≤ n) :
    ((List.range n).map (fun d => d + 1)).drop (n - f) =
      (List.range f).map (fun i => n - f + i + 1) := by
  apply List.ext_getElem
  · simp
    omega
  · intro i h1 h2
    simp
    try omega

/-- C2: for every valid (year, month) pair the leading filler count plus the
days in the month plus the trailing filler count is exactly 42, and the
leading filler day numbers are the last `firstWeekdayOfMonth` day numbers of
the previous month in increasing order. -/
theorem calendar_grid_spec : ∀ year month : Nat, 1 ≤ year → month < 12 →
    (leadingFillerDays year month).length + getDaysInMonth year month +
      (trailingFillerDays year month).length = 42 ∧
    leadingFillerDays year month =
      ((List.range
          (getDaysInMonth (prevYearMonth year month).1 (prevYearMonth year month).2)).map
        (fun d => d + 1)).drop
        (getDaysInMonth (prevYearMonth year month).1 (prevYearMonth year month).2 -
          getFirstDayOfMonth year month) := by
  intro year month _ hm
  have hf := getFirstDayOfMonth_lt year month
  have hdim := getDaysInMonth_bounds year month hm
  have hdpm :=
    getDaysInMonth_bounds (prevYearMonth year month).1 (prevYearMonth year month).2
      (prevYearMonth_snd_lt year month hm)
  constructor
  · simp [leadingFillerDays, trailingFillerDays]
    omega
  · rw [drop_map_range _ _ (by omega)]
    rfl

/-- Witness for C2 at February 2024, a leap month. -/
theorem calendar_grid_spec_witness :
    (leadingFillerDays 2024 1).length + getDaysInMonth 2024 1 +
      (trailingFillerDays 2024 1).length = 42 :=
  (calendar_grid_spec 2024 1 (by decide) (by decide)).1

/-- C10: for every valid (year, month), the weekday of day 1 plus the days in
the month is at most 37, so the trailing filler count is at least 5: the
clamp-to-zero case of `getNextMonthDays` is unreachable and the trailing
filler sequence is never empty. -/
theorem trailing_filler_margin : ∀ year month : Nat, 1 ≤ year → month < 12 →
    getFirstDayOfMonth year month + getDaysInMonth year month ≤ 37 ∧
    5 ≤ (trailingFillerDays year month).length := by
  intro year month _ hm
  have hf := getFirstDayOfMonth_lt year month
  have hdim := getDaysInMonth_bounds year month hm
  constructor
  · omega
  · simp [trailingFillerDays]
    omega

/-- Witness for C10 at October 2026. -/
theorem trailing_filler_margin_witness :
    getFirstDayOfMonth 2026 9 + getDaysInMonth 2026 9 ≤ 37 ∧
    5 ≤ (trailingFillerDays 2026 9).length :=
  trailing_filler_margin 2026 9 (by decide) (by decide)

/-- The handler guard never changes the committed value away from the
recomputed one: the result of `handleTimeChange` is the candidate. -/
lemma handleTimeChange_eq_candidate (dt : JSDate) (hours minutes : Nat) :
    handleTimeChange dt hours minutes = timeChangeCandidate dt hours minutes := by
  simp only [handleTimeChange]
  split
  · rfl
  · next h => exact (not_not.mp h).symm

/-- C3 (code bug): `handleDateChange` from the committed value
2024-01-31T08:30 with the valid target date 2024-04-15 commits
2024-05-15T08:30 (0-based month 4, May): `setMonth` overflows April 31 into
May 1 before `setDate` runs. A second identical call then commits
2024-04-15T08:30, so the repeated call is not a no-op either. -/
theorem handleDateChange_month_overflow :
    handleDateChange ⟨2024, 0, 31, 8, 30⟩ ⟨2024, 3, 15, 0, 0⟩ =
      ⟨2024, 4, 15, 8, 30⟩ ∧
    (handleDateChange ⟨2024, 0, 31, 8, 30⟩ ⟨2024, 3, 15, 0, 0⟩).month ≠ 3 ∧
    handleDateChange ⟨2024, 4, 15, 8, 30⟩ ⟨2024, 3, 15, 0, 0⟩ =
      ⟨2024, 3, 15, 8, 30⟩ := by
  decide

/-- C4: the change callback never fires on mount, never fires for a mutation
that recomputes an identical value, never fires when a mutation returns the
committed value to exactly the initial value, and every firing carries the
full newly committed value, which differs from both the previous committed
value and the initial value. -/
theorem change_callback_guard :
    (∀ initialDate : JSDate, emitChange initialDate initialDate = none) ∧
    (∀ (initialDate date : JSDate) (mu : Mutation),
      mutationCandidate date mu = date → (applyMutation initialDate date mu).2 = none) ∧
    (∀ (initialDate date : JSDate) (mu : Mutation),
      mutationCandidate date mu = initialDate →
        (applyMutation initialDate date mu).2 = none) ∧
    (∀ (initialDate date : JSDate) (mu : Mutation) (v : JSDate),
      (applyMutation initialDate date mu).2 = some v →
        v ≠ date ∧ v ≠ initialDate ∧ v = (applyMutation initialDate date mu).1) := by
  refine ⟨?_, ?_, ?_, ?_⟩
  · intro i
    simp [emitChange]
  · intro i d mu h
    simp [applyMutation, h]
  · intro i d mu h
    by_cases hc : mutationCandidate d mu = d
    · simp [applyMutation, hc]
    · simp [applyMutation, hc, emitChange, h]
      split <;> rfl
  · intro i d mu v h
    by_cases hc : mutationCandidate d mu = d
    · simp [applyMutation, hc] at h
    · by_cases hi : mutationCandidate d mu = i
      · simp [applyMutation, hc, emitChange, hi] at h
        split at h <;> simp_all
      · simp [applyMutation, hc, emitChange, hi] at h
        subst h
        exact ⟨hc, hi, by simp [applyMutation, hc]⟩

/-- Witness for C4: from initial and committed value 2025-06-15T14:05, a time
mutation to 09:05 fires with the full updated value. -/
theorem change_callback_guard_witness :
    (⟨2025, 5, 15, 9, 5⟩ : JSDate) ≠ ⟨2025, 5, 15, 14, 5⟩ ∧
    (⟨2025, 5, 15, 9, 5⟩ : JSDate) ≠ ⟨2025, 5, 15, 14, 5⟩ ∧
    (⟨2025, 5, 15, 9, 5⟩ : JSDate) =
      (applyMutation ⟨2025, 5, 15, 14, 5⟩ ⟨2025, 5, 15, 14, 5⟩
        (Mutation.timeChange 9 5)).1 :=
  change_callback_guard.2.2.2 ⟨2025, 5, 15, 14, 5⟩ ⟨2025, 5, 15, 14, 5⟩
    (Mutation.timeChange 9 5) ⟨2025, 5, 15, 9, 5⟩ (by decide)

/-- C7: for every committed value and every hour in 0..23 and minute in
0..59, `handleTimeChange` commits the given hour and minute and leaves year,
month and day unchanged; recomputing an identical value is a no-op; and from
initial instant 2025-06-15T14:05 the mutation to 09:05 commits
2025-06-15T09:05 and fires the change callback with it. -/
theorem handleTimeChange_frame : ∀ (dt : JSDate) (hours minutes : Nat),
    hours < 24 → minutes < 60 →
    ((handleTimeChange dt hours minutes).year = dt.year ∧
     (handleTimeChange dt hours minutes).month = dt.month ∧
     (handleTimeChange dt hours minutes).day = dt.day ∧
     (handleTimeChange dt hours minutes).hours = hours ∧
     (handleTimeChange dt hours minutes).minutes = minutes) ∧
    (timeChangeCandidate dt hours minutes = dt →
      handleTimeChange dt hours minutes = dt) ∧
    applyMutation ⟨2025, 5, 15, 14, 5⟩ ⟨2025, 5, 15, 14, 5⟩
        (Mutation.timeChange 9 5) =
      (⟨2025, 5, 15, 9, 5⟩, some ⟨2025, 5, 15, 9, 5⟩) := by
  intro dt hours minutes _ _
  refine ⟨?_, ?_, by decide⟩
  · rw [handleTimeChange_eq_candidate]
    exact ⟨rfl, rfl, rfl, rfl, rfl⟩
  · intro h
    rw [handleTimeChange_eq_candidate, h]

/-- Witness for C7 at the committed value 2025-06-15T14:05 and time 09:05. -/
theorem handleTimeChange_frame_witness :
    ((handleTimeChange ⟨2025, 5, 15, 14, 5⟩ 9 5).year =
        (⟨2025, 5, 15, 14, 5⟩ : JSDate).year ∧
     (handleTimeChange ⟨2025, 5, 15, 14, 5⟩ 9 5).month =
        (⟨2025, 5, 15, 14, 5⟩ : JSDate).month ∧
     (handleTimeChange ⟨2025, 5, 15, 14, 5⟩ 9 5).day =
        (⟨2025, 5, 15, 14, 5⟩ : JSDate).day ∧
     (handleTimeChange ⟨2025, 5, 15, 14, 5⟩ 9 5).hours = 9 ∧
     (handleTimeChange ⟨2025, 5, 15, 14, 5⟩ 9 5).minutes = 5) ∧
    (timeChangeCandidate ⟨2025, 5, 15, 14, 5⟩ 9 5 = ⟨2025, 5, 15, 14, 5⟩ →
      handleTimeChange ⟨2025, 5, 15, 14, 5⟩ 9 5 = ⟨2025, 5, 15, 14, 5⟩) ∧
    applyMutation ⟨2025, 5, 15, 14, 5⟩ ⟨2025, 5, 15, 14, 5⟩
        (Mutation.timeChange 9 5) =
      (⟨2025, 5, 15, 9, 5⟩, some ⟨2025, 5, 15, 9, 5⟩) :=
  handleTimeChange_frame ⟨2025, 5, 15, 14, 5⟩ 9 5 (by decide) (by decide)

/-- C8: `togglePicker` first forces the requested view to the only permitted
view when the mode is date-only or time-only; then, open with the forced view
active closes the picker, and anything else opens it on the forced view. In
particular, from closed in date-only mode, requesting the time view opens the
date view. -/
theorem togglePicker_spec :
    (∀ (mode : Mode) (st : PickerState) (view : Option View),
      togglePicker mode st view =
        if st.isOpen ∧ st.activeView = forcedView mode st view then
          { st with isOpen := false }
        else { isOpen := true, activeView := forcedView mode st view }) ∧
    togglePicker Mode.date { isOpen := false, activeView := View.date }
        (some View.time) =
      { isOpen := true, activeView := View.date } := by
  constructor
  · decide
  · decide

/-- Each overlay toggle closes the other overlay, so its result always
satisfies the mutual-exclusion invariant, whatever the input state. -/
lemma openOverlay_inv : ∀ (st : OverlayState) (k : OverlayKind),
    overlayInvariant (openOverlay st k) := by
  decide

/-- Any sequence of overlay toggles preserves the mutual-exclusion
invariant. -/
lemma runOverlayOps_inv (ops : List OverlayKind) :
    ∀ st : OverlayState, overlayInvariant st → overlayInvariant (runOverlayOps st ops) := by
  induction ops with
  | nil => intro st h; exact h
  | cons op rest ih =>
      intro st _
      exact ih (openOverlay st op) (openOverlay_inv st op)

/-- C9: after any sequence of overlay toggles from the initial state at most
one of the year and month overlays is open, and toggling Year then Month
leaves exactly the Month overlay open. -/
theorem overlay_mutual_exclusion :
    (∀ ops : List OverlayKind, overlayInvariant (runOverlayOps initialOverlayState ops)) ∧
    runOverlayOps initialOverlayState [OverlayKind.year, OverlayKind.month] =
      { showYearSelector := false, showMonthSelector := true } := by
  constructor
  · intro ops
    exact runOverlayOps_inv ops initialOverlayState (Or.inl rfl)
  · decide

end RDateTime
